import Mathlib

/-!
Verification of the simple_sandbox sandbox manager
(`src/simple_sandbox/core.py` and `src/simple_sandbox/server.py`).

The Python code is shallowly embedded: pure path/string manipulation is
translated to executable Lean functions over `String`/`List Char`;
the kernel-message pump becomes a recursion over an explicit list of
incoming iopub messages; the process-wide registry becomes an
association list threaded through the operations; subprocess calls and
filesystem effects are represented by explicit outcome parameters.
-/

/-! ## Path model

Models the `os.path` functions used by `Sandbox.get_file_path` and
`Sandbox.upload_file`.  All paths the code feeds into `os.path.abspath`
are absolute (work directories come from `tempfile.mkdtemp`), so
`abspath` reduces to `normpath`, which is modelled component-wise.
-/

/-- Python `str.startswith`: character-level string comparison. -/
def pyStartswith (s pre : String) : Bool :=
  List.isPrefixOf pre.data s.data

/-- Python `str.endswith`. -/
def pyEndswith (s suf : String) : Bool :=
  List.isSuffixOf suf.data s.data

/-- Python `posixpath.join(a, b)`: if `b` is absolute it replaces `a`;
otherwise `b` is appended, inserting a slash unless `a` is empty or
already ends with one. -/
def pyJoin (a b : String) : String :=
  if pyStartswith b "/" then b
  else if a = "" ∨ pyEndswith a "/" then a ++ b
  else a ++ "/" ++ b

/-- Split a character list on `'/'`, keeping empty components, like
Python `str.split('/')`. -/
def splitCh : List Char → List (List Char)
  | [] => [[]]
  | c :: rest =>
    if c = '/' then [] :: splitCh rest
    else
      match splitCh rest with
      | [] => [[c]]
      | h :: t => (c :: h) :: t

/-- One step of `posixpath.normpath` component processing for an
absolute path: drop empty and `.` components, let `..` pop the last
kept component (at the root it disappears), keep everything else. -/
def normStep (acc : List (List Char)) (c : List Char) : List (List Char) :=
  if c = [] ∨ c = ['.'] then acc
  else if c = ['.', '.'] then acc.dropLast
  else acc ++ [c]

/-- A component that `normStep` keeps verbatim when it is not `..`:
neither empty nor `.`. -/
def isRealComp (c : List Char) : Bool :=
  if c = [] ∨ c = ['.'] then false else true

/-- Normalized component list of an absolute path. -/
def normComps (cs : List (List Char)) : List (List Char) :=
  cs.foldl normStep []

/-- Render a component list back to an absolute path (`/a/b/c`). -/
def renderComps (cs : List (List Char)) : List Char :=
  cs.foldl (fun acc c => acc ++ '/' :: c) []

/-- `os.path.abspath` on an absolute input (= `posixpath.normpath`). -/
def normAbsL (l : List Char) : List Char :=
  let r := renderComps (normComps (splitCh l))
  if r = [] then ['/'] else r

/-- `os.path.abspath` on an absolute input, at `String` level. -/
def normAbs (s : String) : String :=
  ⟨normAbsL s.data⟩

/-- Specification-side notion of a path lying within a directory:
it is the directory itself or a proper descendant of it. -/
def withinDir (dir p : String) : Bool :=
  p = dir || pyStartswith p (dir ++ "/")

/-- `Sandbox.get_file_path` (core.py): absolutize the join of
`work_dir` and the request path, raise 403 (modelled as `.error`)
when the result does not `startswith` the absolutized `work_dir`,
otherwise return it. -/
def get_file_path (work_dir file_path : String) : Except String String :=
  let full_path := normAbs (pyJoin work_dir file_path)
  if pyStartswith full_path (normAbs work_dir) then Except.ok full_path
  else Except.error "File access denied"

/-- `Sandbox.upload_file` save-path computation (core.py): join
`work_dir` with the client-supplied path, or with the original
filename when no path was given.  No containment check is performed;
the returned string is the path the bytes are written to. -/
def upload_file_save_path (work_dir : String) (file_path : Option String)
    (filename : String) : String :=
  match file_path with
  | some fp => pyJoin work_dir fp
  | none => pyJoin work_dir filename

/-! ## ANSI escape filtering

Models `ansi_escape = re.compile(r'\x1b\[[0-9;]*[a-zA-Z]')` and
`ansi_escape.sub('', s)` from core.py.  `re.sub` scans left to right,
removing each leftmost non-overlapping match; since the parameter
characters `[0-9;]` and the final characters `[a-zA-Z]` are disjoint,
the regex is matched without backtracking.  The recursion is paced by
a fuel argument equal to the input length; every step consumes at
least one character, so the fuel never runs out. -/

/-- A character matched by `[0-9;]`. -/
def isAnsiParam (c : Char) : Bool := c.isDigit || c = ';'

/-- A character matched by `[a-zA-Z]`. -/
def isAnsiFinal (c : Char) : Bool := c.isAlpha

/-- After `ESC [`, consume `[0-9;]*` then one `[a-zA-Z]`; return the
remainder of the input on success. -/
def ansiTail : List Char → Option (List Char)
  | [] => none
  | c :: rest =>
    if isAnsiParam c then ansiTail rest
    else if isAnsiFinal c then some rest
    else none

/-- Try to match the ANSI regex at the head of the input; on success
return what follows the match. -/
def ansiMatch : List Char → Option (List Char)
  | '\x1b' :: '[' :: rest => ansiTail rest
  | _ => none

/-- `re.sub` of the ANSI regex with the empty replacement, on
character lists, paced by fuel. -/
def ansiSubFuel : Nat → List Char → List Char
  | 0, l => l
  | _ + 1, [] => []
  | fuel + 1, c :: rest =>
    match ansiMatch (c :: rest) with
    | some rem => ansiSubFuel fuel rem
    | none => c :: ansiSubFuel fuel rest

/-- `ansi_escape.sub('', s)` on character lists. -/
def ansiSubL (l : List Char) : List Char :=
  ansiSubFuel l.length l

/-- `ansi_escape.sub('', s)` on strings. -/
def ansiSub (s : String) : String :=
  ⟨ansiSubL s.data⟩

/-- Whether any position of the input starts an ANSI escape sequence
(i.e. whether the regex has a match anywhere). -/
def containsAnsiL : List Char → Bool
  | [] => false
  | c :: rest => (ansiMatch (c :: rest)).isSome || containsAnsiL rest

/-- Whether a string contains an ANSI escape sequence. -/
def containsAnsi (s : String) : Bool :=
  containsAnsiL s.data

/-! ## Kernel session: message pump and execution records

Models `Sandbox.execute_code`.  The iopub traffic that
`kernel_client.get_iopub_msg` would deliver is made explicit as a list
of messages; the end of the list plays the role of the timeout
`Exception` that ends the pump, and the per-message payloads carry
exactly the fields the code reads. -/

/-- Payload of an iopub message, by `msg_type`. -/
inductive MsgContent where
  | stream (name text : String)
  | errorMsg (ename evalue : String) (traceback : List String)
  | executeResult (data : List (String × String))
  | displayData (data : List (String × String))
  | executeReply
  | status (execution_state : String)
  | other
deriving DecidableEq, Repr

/-- One iopub message: the `parent_header.msg_id` reference (absent
when the header carries no id) and the typed payload. -/
structure IOPubMsg where
  parent_msg_id : Option String
  content : MsgContent
deriving DecidableEq, Repr

/-- The `error` field of an execution record. -/
structure ExecError where
  name : String
  value : String
  traceback : List String
deriving DecidableEq, Repr

/-- One rich-result entry `{type, data}`. -/
structure RichResult where
  type : String
  data : String
deriving DecidableEq, Repr

/-- The dictionary returned by `execute_code`. -/
structure ExecRecord where
  stdout : List String
  stderr : List String
  error : Option ExecError
  results : List RichResult
deriving DecidableEq, Repr

/-- The `while True` message pump of `execute_code`: discard messages
whose parent id differs from the submission id, dispatch the rest by
type, stop on `execute_reply` or an idle `status` (or when no message
arrives any more).  Error components are ANSI-stripped at capture, as
in the code. -/
def pumpLoop (msg_id : String) : List IOPubMsg → List String → List String →
    Option ExecError → List RichResult → ExecRecord
  | [], so, se, er, rs => ⟨so, se, er, rs⟩
  | m :: rest, so, se, er, rs =>
    if m.parent_msg_id ≠ some msg_id then
      pumpLoop msg_id rest so se er rs
    else
      match m.content with
      | .stream name text =>
        if name = "stdout" then pumpLoop msg_id rest (so ++ [text]) se er rs
        else if name = "stderr" then pumpLoop msg_id rest so (se ++ [text]) er rs
        else pumpLoop msg_id rest so se er rs
      | .errorMsg en ev tb =>
        pumpLoop msg_id rest so se (some ⟨ansiSub en, ansiSub ev, tb.map ansiSub⟩) rs
      | .executeResult d =>
        pumpLoop msg_id rest so se er (rs ++ d.map fun p => ⟨p.1, p.2⟩)
      | .displayData d =>
        pumpLoop msg_id rest so se er (rs ++ d.map fun p => ⟨p.1, p.2⟩)
      | .executeReply => ⟨so, se, er, rs⟩
      | .status st =>
        if st = "idle" then ⟨so, se, er, rs⟩
        else pumpLoop msg_id rest so se er rs
      | .other => pumpLoop msg_id rest so se er rs

/-- `Sandbox.execute_code`: increment `last_execute_id`, submit (the
fresh submission id `msg_id` and the iopub traffic are parameters),
pump, and return the record with stdout/stderr fragments
ANSI-stripped.  The returned pair is (new `last_execute_id`, record);
the record itself carries no counter field, exactly like the
dictionary built by the code. -/
def execute_code (msg_id : String) (msgs : List IOPubMsg)
    (last_execute_id : Nat) : Nat × ExecRecord :=
  (last_execute_id + 1,
    let r := pumpLoop msg_id msgs [] [] none []
    { stdout := r.stdout.map ansiSub
      stderr := r.stderr.map ansiSub
      error := r.error
      results := r.results })

/-- Variant of the pump that records the error components as emitted,
without ANSI stripping; used to state what stripping is applied to. -/
def rawPumpLoop (msg_id : String) : List IOPubMsg → List String → List String →
    Option ExecError → List RichResult → ExecRecord
  | [], so, se, er, rs => ⟨so, se, er, rs⟩
  | m :: rest, so, se, er, rs =>
    if m.parent_msg_id ≠ some msg_id then
      rawPumpLoop msg_id rest so se er rs
    else
      match m.content with
      | .stream name text =>
        if name = "stdout" then rawPumpLoop msg_id rest (so ++ [text]) se er rs
        else if name = "stderr" then rawPumpLoop msg_id rest so (se ++ [text]) er rs
        else rawPumpLoop msg_id rest so se er rs
      | .errorMsg en ev tb =>
        rawPumpLoop msg_id rest so se (some ⟨en, ev, tb⟩) rs
      | .executeResult d =>
        rawPumpLoop msg_id rest so se er (rs ++ d.map fun p => ⟨p.1, p.2⟩)
      | .displayData d =>
        rawPumpLoop msg_id rest so se er (rs ++ d.map fun p => ⟨p.1, p.2⟩)
      | .executeReply => ⟨so, se, er, rs⟩
      | .status st =>
        if st = "idle" then ⟨so, se, er, rs⟩
        else rawPumpLoop msg_id rest so se er rs
      | .other => rawPumpLoop msg_id rest so se er rs

/-- ANSI-strip every component of an error value, as the `error`
branch of the pump does at capture time. -/
def strip_error (e : ExecError) : ExecError :=
  ⟨ansiSub e.name, ansiSub e.value, e.traceback.map ansiSub⟩

/-- `last_execute_id` right after `Sandbox.__init__` sets it to 0. -/
def init_last_execute_id : Nat := 0

/-- The counter value after `__init__` finishes: the constructor runs
one execution of the font-registration snippet before any client call. -/
def counter_after_init (font_sid : String) (font_msgs : List IOPubMsg) : Nat :=
  (execute_code font_sid font_msgs init_last_execute_id).1

/-- The `last_execute_id` values taken during a sequence of client
`execute` calls (each given by its submission id and iopub traffic),
starting from counter state `c0`. -/
def client_counter_values (c0 : Nat) :
    List (String × List IOPubMsg) → List Nat
  | [] => []
  | (sid, msgs) :: rest =>
    let r := execute_code sid msgs c0
    r.1 :: client_counter_values r.1 rest

/-! ## Sandbox registry and reaper

Models the module-level `sandboxes` dict (id → record with
`created_at`), `get_sandbox`, `close_and_cleanup_sandbox`, the
post-sleep body of `auto_close_sandbox`, `cleanup_expired_sandboxes`,
and the `/close` endpoint of server.py.  Event-loop timestamps are
modelled as integers; the only operation the code performs on them is
`current_time - created_at > 86400`.  Where a function also tears a
sandbox down, the returned `Bool` (or list of ids) records on which
sandboxes `Sandbox.shutdown()` was invoked. -/

/-- The registry: sandbox id with its `created_at` timestamp. -/
abbrev Registry := List (String × Int)

/-- Dictionary lookup `sandboxes[id]` / `id in sandboxes`. -/
def regLookup : Registry → String → Option Int
  | [], _ => none
  | (k, v) :: rest, id => if k = id then some v else regLookup rest id

/-- Dictionary deletion `del sandboxes[id]`. -/
def regErase : Registry → String → Registry
  | [], _ => []
  | (k, v) :: rest, id =>
    if k = id then regErase rest id else (k, v) :: regErase rest id

/-- `close_and_cleanup_sandbox` (core.py): if the id is registered,
remove it from the registry and shut the sandbox down; otherwise do
nothing.  The `Bool` records whether `shutdown()` ran. -/
def close_and_cleanup_sandbox (reg : Registry) (id : String) : Registry × Bool :=
  if (regLookup reg id).isSome then (regErase reg id, true) else (reg, false)

/-- Body of `auto_close_sandbox` after its `asyncio.sleep(86400)`:
textually the same check-remove-shutdown sequence as
`close_and_cleanup_sandbox`.  The sleep only constrains when it runs
(at least 86400 s after scheduling); no age check is performed here. -/
def auto_close_sandbox_fire (reg : Registry) (id : String) : Registry × Bool :=
  if (regLookup reg id).isSome then (regErase reg id, true) else (reg, false)

/-- Expiry test of the sweep: `current_time - created_at > 86400`. -/
def is_expired (now created : Int) : Bool :=
  86400 < now - created

/-- The `expired_sandboxes` list comprehension of
`cleanup_expired_sandboxes`. -/
def expired_ids (now : Int) (reg : Registry) : List String :=
  (reg.filter fun p => is_expired now p.2).map Prod.fst

/-- The `for sandbox_id in expired_sandboxes` loop: fold
`close_and_cleanup_sandbox` over the expired ids, collecting the ids
that were actually shut down. -/
def run_closes : List String → Registry × List String → Registry × List String
  | [], st => st
  | sid :: rest, st =>
    let r := close_and_cleanup_sandbox st.1 sid
    run_closes rest (r.1, if r.2 then st.2 ++ [sid] else st.2)

/-- `cleanup_expired_sandboxes` (core.py): compute the expired ids at
the current time, then close each. -/
def cleanup_expired_sandboxes (now : Int) (reg : Registry) :
    Registry × List String :=
  run_closes (expired_ids now reg) (reg, [])

/-- Result of the `/close` HTTP endpoint. -/
inductive CloseResponse where
  | notFound
  | success
deriving DecidableEq, Repr

/-- `close_sandbox` (server.py): look the sandbox up — 404 when
absent — otherwise schedule `close_and_cleanup_sandbox` as a
`BackgroundTasks` entry and return success.  The registry is returned
as it stands when the response is sent: the background task has not
run yet, so no unregistration has happened at that point. -/
def close_sandbox_endpoint (reg : Registry) (id : String) :
    CloseResponse × Registry :=
  if (regLookup reg id).isSome then (CloseResponse.success, reg)
  else (CloseResponse.notFound, reg)

/-- The sandbox-scoped operations of server.py. -/
inductive SandboxOp where
  | executeOp (code : String)
  | installOp (package_name : String)
  | uploadOp (file_path : String)
  | listFilesOp
  | downloadOp (file_path : String)
deriving DecidableEq, Repr

/-- Outcome of dispatching an operation: 404 when the id is not
registered, otherwise the request reaches the sandbox's method. -/
inductive OpOutcome where
  | notFound
  | handled (op : SandboxOp)
deriving DecidableEq, Repr

/-- Common gate of every sandbox endpoint in server.py:
`get_sandbox(sandbox_id)` and a 404 when it returns `None`; only a
registered sandbox's method is ever invoked. -/
def handle_op (reg : Registry) (id : String) (op : SandboxOp) : OpOutcome :=
  if (regLookup reg id).isSome then OpOutcome.handled op else OpOutcome.notFound

/-! ## Package installation

Models `Sandbox.install_package`.  The `subprocess.run` call is
represented by its outcome: either the installer process completed
with an exit code and captured output, or the call raised (its
`TimeoutExpired` after the 120 s bound, a missing executable, …). -/

/-- Outcome of the `subprocess.run` invocation. -/
inductive RunOutcome where
  | completed (returncode : Int) (stdout stderr : String)
  | raisedExc (message : String)
deriving DecidableEq, Repr

/-- Exit code of an outcome, when the process completed. -/
def returncodeOf : RunOutcome → Option Int
  | .completed rc _ _ => some rc
  | .raisedExc _ => none

/-- The dictionary returned by `install_package`. -/
structure InstallResult where
  success : Bool
  stdout : String
  stderr : String
  message : String
deriving DecidableEq, Repr

/-- The `timeout=120` argument `install_package` passes to
`subprocess.run`. -/
def install_package_timeout : Nat := 120

/-- `Sandbox.install_package` (core.py): run the installer; exit code
0 yields a success result, a non-zero exit yields a failure result
carrying the captured logs, and any exception is converted into a
failure result as well — the function returns in every case. -/
def install_package (package_name : String) (run : RunOutcome) : InstallResult :=
  match run with
  | .completed rc out err =>
    if rc = 0 then
      ⟨true, out, err, "Successfully installed package: " ++ package_name⟩
    else
      ⟨false, out, err, "Failed to install package: " ++ package_name⟩
  | .raisedExc e =>
    ⟨false, "", e, "Installation error: " ++ e⟩

/-! ## Sandbox creation

Models the control flow of `create_new_sandbox`.  The two
`tempfile.mkdtemp` calls precede the `try:` block; the baseline
copy / fresh-venv build and the `Sandbox(...)` constructor run inside
it, and the `except` handler removes both directories before
re-raising.  A run is summarised by which failure point (if any) was
hit and by the artifacts present when the function exits. -/

/-- The steps of `create_new_sandbox` that can raise. -/
inductive CreateStep where
  | mkWorkDir
  | mkVenvDir
  | setupEnv
  | initSandbox
deriving DecidableEq, Repr

/-- Observable state when `create_new_sandbox` exits. -/
structure CreateOutcome where
  ok : Bool
  workDirExists : Bool
  venvDirExists : Bool
  registered : Bool
deriving DecidableEq, Repr

/-- `create_new_sandbox`, as a function of which step fails (if any):

* `work_dir = tempfile.mkdtemp(...)` — a failure here creates nothing
  and propagates;
* `venv_dir = tempfile.mkdtemp(...)` — a failure here propagates with
  `work_dir` already on disk, since both calls precede the `try:`;
* inside the `try:`, a failure of the baseline copy / venv build or of
  `Sandbox(...)` is caught, both directories are removed with
  `shutil.rmtree`, and the exception is re-raised before
  `sandboxes[sandbox_id] = ...` runs;
* with no failure, both directories exist and the id is registered. -/
def create_new_sandbox_run (failAt : Option CreateStep) : CreateOutcome :=
  if failAt = some CreateStep.mkWorkDir then
    ⟨false, false, false, false⟩
  else if failAt = some CreateStep.mkVenvDir then
    ⟨false, true, false, false⟩
  else if failAt = some CreateStep.setupEnv ∨ failAt = some CreateStep.initSandbox then
    ⟨false, false, false, false⟩
  else
    ⟨true, true, true, true⟩

/-! ## Registry lemmas -/

/-- Deleting an id from the registry makes its lookup fail. -/
theorem regLookup_regErase_self (reg : Registry) (id : String) :
    regLookup (regErase reg id) id = none := by
  induction reg with
  | nil => rfl
  | cons p rest ih =>
    obtain ⟨k, v⟩ := p
    by_cases h : k = id
    · simp [regErase, h, ih]
    · simp [regErase, regLookup, h, ih]

/-- Deleting one id leaves lookups of other ids unchanged. -/
theorem regLookup_regErase_ne (reg : Registry) (k id : String) (h : k ≠ id) :
    regLookup (regErase reg k) id = regLookup reg id := by
  induction reg with
  | nil => rfl
  | cons p rest ih =>
    obtain ⟨k', v⟩ := p
    by_cases hk : k' = k
    · subst hk
      simp [regErase, regLookup, h, ih]
    · simp [regErase, regLookup, hk, ih]

/-! ## Claim theorems -/

/-- Claim C1 (code bug).  `get_file_path` guards downloads with
`full_path.startswith(abspath(work_dir))`, a raw string-prefix check
with no trailing separator.  Evaluated at work_dir `/tmp/sandbox_a`
and request path `../sandbox_ab/secret`, the traversal resolves to
`/tmp/sandbox_ab/secret`, which passes the check and is returned even
though it lies outside the work directory — no `AccessDenied` is
raised, contradicting the claim (a plain `../../etc/passwd` traversal
is rejected, as the third conjunct shows). -/
theorem c1_get_file_path_escape :
    get_file_path "/tmp/sandbox_a" "../sandbox_ab/secret"
      = Except.ok "/tmp/sandbox_ab/secret"
    ∧ withinDir "/tmp/sandbox_a" "/tmp/sandbox_ab/secret" = false
    ∧ get_file_path "/tmp/sandbox_a" "../../etc/passwd"
      = Except.error "File access denied" :=
  ⟨rfl, by decide, rfl⟩

/-- Claim C3 (code bug).  Both `tempfile.mkdtemp` calls of
`create_new_sandbox` precede the `try:` block whose handler removes
the directories.  When creating `venv_dir` fails, the call fails with
`work_dir` still on disk — contradicting the claim that no directory
survives a failed create.  (A failure inside the `try:`, e.g. of the
environment build, does remove both directories.) -/
theorem c3_create_venv_mkdtemp_leak :
    create_new_sandbox_run (some CreateStep.mkVenvDir)
      = ⟨false, true, false, false⟩
    ∧ (create_new_sandbox_run (some CreateStep.setupEnv)).workDirExists = false := by
  decide

/-- Claim C5 (counterexample).  On the registry `[("a", 0)]`, the
`/close` endpoint returns success while `"a"` is still registered
when the response is sent — unregistration happens only in the
deferred background task, not synchronously — and a second close
issued after that task has run returns 404 rather than being a
no-op. -/
theorem c5_close_async_cex :
    (close_sandbox_endpoint [("a", 0)] "a").1 = CloseResponse.success
    ∧ regLookup (close_sandbox_endpoint [("a", 0)] "a").2 "a" = some 0
    ∧ (close_sandbox_endpoint (close_and_cleanup_sandbox [("a", 0)] "a").1 "a").1
        = CloseResponse.notFound := by
  decide

/-- Claim C5 (amended).  What the code does deliver: the `/close`
endpoint never mutates the registry before responding (unregistration
is deferred to the background task); on an unregistered id it answers
404; and the core teardown `close_and_cleanup_sandbox` is idempotent —
a second invocation leaves the registry as it was and performs no
second shutdown. -/
theorem c5_close_amended (reg : Registry) (id : String) :
    (close_sandbox_endpoint reg id).2 = reg
    ∧ (regLookup reg id = none →
        (close_sandbox_endpoint reg id).1 = CloseResponse.notFound)
    ∧ close_and_cleanup_sandbox (close_and_cleanup_sandbox reg id).1 id
        = ((close_and_cleanup_sandbox reg id).1, false) := by
  refine ⟨?_, ?_, ?_⟩
  · unfold close_sandbox_endpoint
    split <;> rfl
  · intro h
    unfold close_sandbox_endpoint
    simp [h]
  · unfold close_and_cleanup_sandbox
    by_cases h : (regLookup reg id).isSome
    · simp [h, regLookup_regErase_self]
    · simp [h]

/-- Witness for the amended claim C5 at a concrete registry. -/
theorem c5_close_amended_witness :
    regLookup ([] : Registry) "a" = none
    ∧ (close_sandbox_endpoint ([] : Registry) "a").1 = CloseResponse.notFound :=
  ⟨by decide, (c5_close_amended [] "a").2.1 (by decide)⟩

/-- Claim C6 (confirmed).  Every sandbox-scoped endpoint of server.py
first performs `get_sandbox` and answers 404 (`Unknown`) when the id
is not registered.  Both teardown paths — `close_and_cleanup_sandbox`
and the fired expiry timer — remove the id from the registry before
shutting the session down, so every subsequent execute, install,
upload, list or download on that id fails with `Unknown` instead of
reaching the torn-down session. -/
theorem c6_ops_after_close_fail (reg : Registry) (id : String) (op : SandboxOp) :
    handle_op (close_and_cleanup_sandbox reg id).1 id op = OpOutcome.notFound
    ∧ handle_op (auto_close_sandbox_fire reg id).1 id op = OpOutcome.notFound := by
  have h1 : regLookup (close_and_cleanup_sandbox reg id).1 id = none := by
    unfold close_and_cleanup_sandbox
    cases hl : regLookup reg id with
    | none => simp [hl]
    | some v => simp [hl, regLookup_regErase_self]
  have h2 : regLookup (auto_close_sandbox_fire reg id).1 id = none := by
    unfold auto_close_sandbox_fire
    cases hl : regLookup reg id with
    | none => simp [hl]
    | some v => simp [hl, regLookup_regErase_self]
  constructor
  · unfold handle_op
    simp [h1]
  · unfold handle_op
    simp [h2]


/-- Claim C7 (confirmed).  `install_package` returns a result object
in every case and never raises: exit code 0 yields `success = true`,
a non-zero exit yields `success = false` with the captured stdout and
stderr, and an installer exception (including the `TimeoutExpired`
from the 120-second bound passed to `subprocess.run`) is converted
into a failure result carrying the exception text. -/
theorem c7_install_package_result (pkg : String) (rc : Int) (out err emsg : String) :
    ((install_package pkg (RunOutcome.completed rc out err)).success = true ↔ rc = 0)
    ∧ (install_package pkg (RunOutcome.completed rc out err)).stdout = out
    ∧ (install_package pkg (RunOutcome.completed rc out err)).stderr = err
    ∧ install_package pkg (RunOutcome.raisedExc emsg)
        = ⟨false, "", emsg, "Installation error: " ++ emsg⟩
    ∧ (∀ run : RunOutcome,
        ((install_package pkg run).success = true ↔ returncodeOf run = some 0))
    ∧ install_package_timeout = 120 := by
  refine ⟨?_, ?_, ?_, rfl, ?_, rfl⟩
  · unfold install_package
    by_cases h : rc = 0 <;> simp [h]
  · unfold install_package
    by_cases h : rc = 0 <;> simp [h]
  · unfold install_package
    by_cases h : rc = 0 <;> simp [h]
  · intro run
    cases run with
    | completed rc' out' err' =>
      unfold install_package returncodeOf
      by_cases h : rc' = 0 <;> simp [h]
    | raisedExc e => simp [install_package, returncodeOf]

/-- Helper: skipping messages whose parent id differs from the
submission id is the same as pumping the pre-filtered stream, for any
accumulator state. -/
theorem pumpLoop_filter_eq (sid : String) (msgs : List IOPubMsg) :
    ∀ so se er rs,
      pumpLoop sid msgs so se er rs
        = pumpLoop sid (msgs.filter fun m => m.parent_msg_id == some sid) so se er rs := by
  induction msgs with
  | nil => intro so se er rs; rfl
  | cons m rest ih =>
    intro so se er rs
    obtain ⟨pid, content⟩ := m
    by_cases h : pid = some sid
    · subst h
      rw [List.filter_cons, if_pos (by simp)]
      cases content with
      | stream name text =>
        by_cases hs : name = "stdout"
        · simp [pumpLoop, hs, ih]
        · by_cases he : name = "stderr" <;> simp [pumpLoop, hs, he, ih]
      | errorMsg en ev tb => simp [pumpLoop, ih]
      | executeResult d => simp [pumpLoop, ih]
      | displayData d => simp [pumpLoop, ih]
      | executeReply => simp [pumpLoop]
      | status st => by_cases hs : st = "idle" <;> simp [pumpLoop, hs, ih]
      | other => simp [pumpLoop, ih]
    · rw [List.filter_cons, if_neg (by simp [h])]
      simp [pumpLoop, h, ih]

/-- Claim C2 (confirmed).  The execution record assembled by
`execute_code` is built only from iopub messages whose
`parent_header.msg_id` equals the submission id: the run over the full
message stream equals the run over the stream pre-filtered to that
submission, so messages with a different or missing parent reference
contribute nothing to stdout, stderr, error, or results. -/
theorem c2_parent_correlation_filter (sid : String) (msgs : List IOPubMsg) (c : Nat) :
    execute_code sid msgs c
      = execute_code sid (msgs.filter fun m => m.parent_msg_id == some sid) c := by
  unfold execute_code
  rw [pumpLoop_filter_eq sid msgs [] [] none []]

/-- Claim C8 (counterexample).  The ANSI filter is a single `re.sub`
pass, and removing a match can splice the surrounding characters into
a new escape sequence: when the kernel emits the stdout fragment
`"\x1b[\x1b[mm"`, the record returned by `execute_code` contains the
fragment `"\x1b[m"`, which is itself an ANSI escape sequence — the
returned fields are not ANSI-free as claimed. -/
theorem c8_ansi_splice_cex :
    (execute_code "s" [⟨some "s", MsgContent.stream "stdout" "\x1b[\x1b[mm"⟩,
        ⟨some "s", MsgContent.status "idle"⟩] 0).2.stdout = ["\x1b[m"]
    ∧ containsAnsi "\x1b[m" = true := by
  decide

/-- Helper: pumping with an already-stripped error accumulator is
pumping raw and stripping the error component afterwards. -/
theorem pumpLoop_strip_rawPumpLoop (sid : String) (msgs : List IOPubMsg) :
    ∀ so se er rs,
      pumpLoop sid msgs so se (er.map strip_error) rs
        = { rawPumpLoop sid msgs so se er rs with
            error := (rawPumpLoop sid msgs so se er rs).error.map strip_error } := by
  induction msgs with
  | nil => intro so se er rs; rfl
  | cons m rest ih =>
    intro so se er rs
    obtain ⟨pid, content⟩ := m
    by_cases h : pid = some sid
    · subst h
      cases content with
      | stream name text =>
        by_cases hs : name = "stdout"
        · simp [pumpLoop, rawPumpLoop, hs, ih]
        · by_cases he : name = "stderr" <;> simp [pumpLoop, rawPumpLoop, hs, he, ih]
      | errorMsg en ev tb =>
        simp only [pumpLoop, rawPumpLoop, ne_eq, not_true_eq_false, if_false]
        have hx := ih so se (some ⟨en, ev, tb⟩) rs
        simpa [strip_error] using hx
      | executeResult d => simp [pumpLoop, rawPumpLoop, ih]
      | displayData d => simp [pumpLoop, rawPumpLoop, ih]
      | executeReply => simp [pumpLoop, rawPumpLoop]
      | status st => by_cases hs : st = "idle" <;> simp [pumpLoop, rawPumpLoop, hs, ih]
      | other => simp [pumpLoop, rawPumpLoop, ih]
    · simp [pumpLoop, rawPumpLoop, h, ih]

/-- Claim C8 (amended).  What the code does deliver: one pass of the
ANSI-escape removal is applied to every text field of the returned
record — stdout and stderr fragments are stripped on return, the
error name, value and every traceback line at capture — relative to
the raw collected output.  A single pass removes each leftmost
non-overlapping match but does not guarantee the result is ANSI-free
(see the counterexample). -/
theorem c8_strip_single_pass (sid : String) (msgs : List IOPubMsg) (c : Nat) :
    (execute_code sid msgs c).2
      = { stdout := (rawPumpLoop sid msgs [] [] none []).stdout.map ansiSub
          stderr := (rawPumpLoop sid msgs [] [] none []).stderr.map ansiSub
          error := (rawPumpLoop sid msgs [] [] none []).error.map strip_error
          results := (rawPumpLoop sid msgs [] [] none []).results } := by
  unfold execute_code
  have h := pumpLoop_strip_rawPumpLoop sid msgs [] [] none []
  simp only [Option.map_none'] at h
  rw [h]

/-- Claim C4 (counterexample).  The record dictionary built by
`execute_code` does not contain the counter: two executions of the
same submission from different `last_execute_id` states return
byte-identical records though their counters differ, so the counter
is not exposed as an execution sequence in the record; moreover
`Sandbox.__init__` itself runs one execution (the font-registration
snippet), so the counter already stands at 1 before the first client
call, whose value is therefore 2, not 1. -/
theorem c4_counter_not_exposed_cex :
    (execute_code "s" [] 0).2 = (execute_code "s" [] 41).2
    ∧ (execute_code "s" [] 0).1 ≠ (execute_code "s" [] 41).1
    ∧ counter_after_init "font" [] = 1 := by
  decide

/-- Helper: the counter values taken by consecutive execute calls are
the consecutive integers following the starting state. -/
theorem client_counter_values_range' :
    ∀ (runs : List (String × List IOPubMsg)) (c : Nat),
      client_counter_values c runs = List.range' (c + 1) runs.length := by
  intro runs
  induction runs with
  | nil => intro c; rfl
  | cons r rest ih =>
    intro c
    obtain ⟨sid, msgs⟩ := r
    simp only [client_counter_values, execute_code, List.length_cons, List.range'_succ]
    exact congrArg _ (ih (c + 1))

/-- Claim C4 (amended).  `last_execute_id` is incremented on every
execution and never exposed in the record.  Counting the
constructor's internal font-registration execution, the counter after
`__init__` is 1, and across any sequence of client execute calls the
internal counter values are exactly `2, 3, …, n+1` — strictly
increasing, gap-free, but starting at 2 because initialization
consumed the first value. -/
theorem c4_exec_counter_amended (font_sid : String) (font_msgs : List IOPubMsg)
    (runs : List (String × List IOPubMsg)) :
    counter_after_init font_sid font_msgs = 1
    ∧ client_counter_values (counter_after_init font_sid font_msgs) runs
        = List.range' 2 runs.length := by
  refine ⟨rfl, ?_⟩
  exact client_counter_values_range' runs 1

/-- Claim C10 (counterexample).  At the instant exactly 86400 seconds
after creation — the earliest the per-sandbox timer can fire — the
timer body closes and shuts the sandbox down without any age check,
while the sweep's strict `now - created_at > 86400` test leaves the
very same registry untouched: the two reclamation paths do not
produce the same outcome, and the timer closes a sandbox that is not
yet older than the budget. -/
theorem c10_sweep_timer_cex :
    (auto_close_sandbox_fire [("a", 0)] "a").2 = true
    ∧ regLookup (auto_close_sandbox_fire [("a", 0)] "a").1 "a" = none
    ∧ is_expired 86400 0 = false
    ∧ (cleanup_expired_sandboxes 86400 [("a", 0)]).2 = []
    ∧ regLookup (cleanup_expired_sandboxes 86400 [("a", 0)]).1 "a" = some 0 := by
  decide

/-- Claim C9 (counterexample).  `upload_file` performs no containment
check: a relative path with `..` makes the write land outside the
work directory (`/tmp/sandbox_a/../evil.txt` resolves to
`/tmp/evil.txt`), and an absolute path discards the work directory
entirely — `os.path.join` returns the second argument. -/
theorem c9_upload_no_containment_cex :
    upload_file_save_path "/tmp/sandbox_a" (some "../evil.txt") "f.txt"
      = "/tmp/sandbox_a/../evil.txt"
    ∧ normAbs "/tmp/sandbox_a/../evil.txt" = "/tmp/evil.txt"
    ∧ withinDir "/tmp/sandbox_a" "/tmp/evil.txt" = false
    ∧ upload_file_save_path "/tmp/sandbox_a" (some "/etc/passwd") "f.txt"
      = "/etc/passwd" := by
  refine ⟨rfl, ?_, by decide, rfl⟩
  decide

/-- Helper: splitting never yields the empty list of components. -/
theorem splitCh_ne_nil (l : List Char) : splitCh l ≠ [] := by
  cases l with
  | nil => simp [splitCh]
  | cons c rest =>
    by_cases h : c = '/'
    · simp [splitCh, h]
    · simp only [splitCh, h, if_false]
      cases splitCh rest <;> simp

/-- Helper: splitting distributes over a slash in the middle. -/
theorem splitCh_append (xs ys : List Char) :
    splitCh (xs ++ '/' :: ys) = splitCh xs ++ splitCh ys := by
  induction xs with
  | nil => simp [splitCh]
  | cons c xs ih =>
    by_cases h : c = '/'
    · simp [splitCh, h, ih]
    · cases hx : splitCh xs with
      | nil => exact absurd hx (splitCh_ne_nil xs)
      | cons h₀ t₀ =>
        simp [splitCh, h, ih, hx]

/-- Helper: folding `normStep` over components free of `..` appends
exactly the kept components. -/
theorem foldl_normStep_no_dotdot (B : List (List Char))
    (hB : ∀ c ∈ B, c ≠ ['.', '.']) :
    ∀ s, B.foldl normStep s = s ++ B.filter isRealComp := by
  induction B with
  | nil => intro s; simp
  | cons c B ih =>
    intro s
    have hc : c ≠ ['.', '.'] := hB c (List.mem_cons_self c B)
    have hB' : ∀ d ∈ B, d ≠ ['.', '.'] := fun d hd => hB d (List.mem_cons_of_mem c hd)
    by_cases h1 : c = [] ∨ c = ['.']
    · have hstep : normStep s c = s := by simp [normStep, h1]
      have hfil : isRealComp c = false := by simp [isRealComp, h1]
      simp [List.foldl_cons, hstep, List.filter_cons, hfil, ih hB']
    · have hstep : normStep s c = s ++ [c] := by simp [normStep, h1, hc]
      have hfil : isRealComp c = true := by simp [isRealComp, h1]
      simp [List.foldl_cons, hstep, List.filter_cons, hfil, ih hB']

/-- Claim C9 (amended).  What `upload_file` does deliver: the write
target is `os.path.join(work_dir, rel_path)` taken verbatim (or the
original filename when no path is given), intermediate directories
are created and the joined path is returned — with no containment
check.  For a relative path free of `..` components the canonical
write location does extend the canonical work directory
component-wise; paths with `..` or absolute paths escape (see the
counterexample). -/
theorem c9_upload_path_amended (w fp fn : String)
    (h1 : pyStartswith fp "/" = false)
    (h2 : w ≠ "")
    (h3 : pyEndswith w "/" = false)
    (h4 : ∀ c ∈ splitCh fp.data, c ≠ ['.', '.']) :
    upload_file_save_path w (some fp) fn = pyJoin w fp
    ∧ upload_file_save_path w none fn = pyJoin w fn
    ∧ pyJoin w fp = w ++ "/" ++ fp
    ∧ normComps (splitCh (pyJoin w fp).data)
        = normComps (splitCh w.data) ++ (splitCh fp.data).filter isRealComp := by
  have hj : pyJoin w fp = w ++ "/" ++ fp := by
    unfold pyJoin
    rw [if_neg (by simp [h1]), if_neg (by simp [h2, h3])]
  refine ⟨rfl, rfl, hj, ?_⟩
  rw [hj]
  have hd : (w ++ "/" ++ fp).data = w.data ++ '/' :: fp.data := by
    rw [String.data_append, String.data_append]
    simp
  rw [hd, splitCh_append]
  unfold normComps
  rw [List.foldl_append]
  exact foldl_normStep_no_dotdot (splitCh fp.data) h4 _

/-- Witness for the amended claim C9 at a concrete safe upload. -/
theorem c9_upload_path_amended_witness :
    (pyStartswith "docs/a.txt" "/" = false
      ∧ ("/tmp/sandbox_a" : String) ≠ ""
      ∧ pyEndswith "/tmp/sandbox_a" "/" = false)
    ∧ normComps (splitCh (pyJoin "/tmp/sandbox_a" "docs/a.txt").data)
        = normComps (splitCh ("/tmp/sandbox_a" : String).data)
          ++ (splitCh ("docs/a.txt" : String).data).filter isRealComp :=
  ⟨⟨by decide, by decide, by decide⟩,
    (c9_upload_path_amended "/tmp/sandbox_a" "docs/a.txt" "f.txt" (by decide)
      (by decide) (by decide) (by decide)).2.2.2⟩

/-- Helper: closing ids other than `id` touches neither the lookup of
`id` nor its presence among the shut-down ids. -/
theorem run_closes_not_mem (L : List String) (id : String) (hid : id ∉ L) :
    ∀ reg closed, regLookup (run_closes L (reg, closed)).1 id = regLookup reg id
      ∧ (id ∈ (run_closes L (reg, closed)).2 ↔ id ∈ closed) := by
  induction L with
  | nil => intro reg closed; exact ⟨rfl, Iff.rfl⟩
  | cons sid rest ih =>
    intro reg closed
    have hne : id ≠ sid := fun h => hid (h ▸ List.mem_cons_self sid rest)
    have hrest : id ∉ rest := fun h => hid (List.mem_cons_of_mem _ h)
    have h1 : regLookup (close_and_cleanup_sandbox reg sid).1 id = regLookup reg id := by
      unfold close_and_cleanup_sandbox
      cases hl : regLookup reg sid with
      | none => simp [hl]
      | some v => simp [hl, regLookup_regErase_ne reg sid id (Ne.symm hne)]
    have hstep := ih hrest (close_and_cleanup_sandbox reg sid).1
      (if (close_and_cleanup_sandbox reg sid).2 then closed ++ [sid] else closed)
    constructor
    · rw [run_closes]
      exact hstep.1.trans h1
    · rw [run_closes]
      refine hstep.2.trans ?_
      by_cases hb : (close_and_cleanup_sandbox reg sid).2 <;>
        simp [hb, hne]

/-- Helper: when `id` occurs in a duplicate-free close list and is
registered, folding the closes unregisters it and records its
shutdown. -/
theorem run_closes_mem (L : List String) (id : String) (hnd : L.Nodup) (hid : id ∈ L) :
    ∀ reg closed, (regLookup reg id).isSome = true →
      regLookup (run_closes L (reg, closed)).1 id = none
      ∧ id ∈ (run_closes L (reg, closed)).2 := by
  induction L with
  | nil => cases hid
  | cons sid rest ih =>
    intro reg closed hsome
    by_cases he : sid = id
    · subst he
      have hc : close_and_cleanup_sandbox reg sid = (regErase reg sid, true) := by
        unfold close_and_cleanup_sandbox
        rw [if_pos hsome]
      have hnotin : sid ∉ rest := (List.nodup_cons.mp hnd).1
      have hr := run_closes_not_mem rest sid hnotin (regErase reg sid) (closed ++ [sid])
      rw [run_closes, hc]
      refine ⟨?_, ?_⟩
      · simpa [regLookup_regErase_self] using hr.1
      · exact hr.2.mpr (by simp)
    · have hidr : id ∈ rest := (List.mem_cons.mp hid).resolve_left fun h => he h.symm
      have h1 : regLookup (close_and_cleanup_sandbox reg sid).1 id = regLookup reg id := by
        unfold close_and_cleanup_sandbox
        cases hl : regLookup reg sid with
        | none => simp [hl]
        | some v => simp [hl, regLookup_regErase_ne reg sid id he]
      rw [run_closes]
      exact ih (List.nodup_cons.mp hnd).2 hidr _ _ (by rw [h1]; exact hsome)

/-- Helper: a registered, expired sandbox appears in the sweep's
expired list. -/
theorem mem_expired_ids (reg : Registry) (id : String) (now c : Int)
    (hl : regLookup reg id = some c) (he : is_expired now c = true) :
    id ∈ expired_ids now reg := by
  induction reg with
  | nil => cases hl
  | cons p rest ih =>
    obtain ⟨k, v⟩ := p
    by_cases hk : k = id
    · subst hk
      have hv : v = c := by
        have := hl
        simp only [regLookup, if_pos rfl] at this
        exact Option.some.inj this
      subst hv
      simp [expired_ids, List.filter_cons, he]
    · have hl' : regLookup rest id = some c := by
        simpa [regLookup, hk] using hl
      have hmem := ih hl'
      unfold expired_ids at hmem ⊢
      rw [List.filter_cons]
      by_cases hv : is_expired now v = true
      · simp only [hv, if_true, List.map_cons]
        exact List.mem_cons_of_mem _ hmem
      · simp only [hv, if_false]
        exact hmem

/-- Helper: an unregistered id never appears in the expired list. -/
theorem not_mem_expired_ids (reg : Registry) (id : String) (now : Int)
    (hl : regLookup reg id = none) :
    id ∉ expired_ids now reg := by
  induction reg with
  | nil => simp [expired_ids]
  | cons p rest ih =>
    obtain ⟨k, v⟩ := p
    have hk : k ≠ id := by
      intro h
      rw [regLookup, if_pos h] at hl
      cases hl
    have hl' : regLookup rest id = none := by
      simpa [regLookup, hk] using hl
    unfold expired_ids at ih ⊢
    rw [List.filter_cons]
    by_cases hv : is_expired now v = true
    · simp only [hv, if_true, List.map_cons, List.mem_cons]
      rintro (h | h)
      · exact hk h.symm
      · exact ih hl' h
    · simp only [hv, if_false]
      exact ih hl'

/-- Helper: with duplicate-free registry keys the expired list is
duplicate-free. -/
theorem nodup_expired_ids (reg : Registry) (now : Int)
    (hnd : (reg.map Prod.fst).Nodup) :
    (expired_ids now reg).Nodup := by
  unfold expired_ids
  have hsub : ((reg.filter fun p => is_expired now p.2).map Prod.fst).Sublist
      (reg.map Prod.fst) :=
    (List.filter_sublist reg).map Prod.fst
  exact hnd.sublist hsub

/-- Claim C10 (amended).  The two reclamation paths agree except at
the boundary instant: for a registered sandbox strictly older than
the 86400-second budget, the hourly sweep and the fired per-sandbox
timer both unregister it and shut it down, and on an unregistered id
both are no-ops — but the timer performs no age check of its own, so
at exactly 86400 elapsed seconds it closes where the sweep would not
(see the counterexample). -/
theorem c10_sweep_timer_amended (reg : Registry) (id : String) (now c : Int)
    (hnd : (reg.map Prod.fst).Nodup) :
    ((regLookup reg id = some c ∧ is_expired now c = true) →
      (regLookup (cleanup_expired_sandboxes now reg).1 id = none
        ∧ id ∈ (cleanup_expired_sandboxes now reg).2
        ∧ regLookup (auto_close_sandbox_fire reg id).1 id = none
        ∧ (auto_close_sandbox_fire reg id).2 = true))
    ∧ (regLookup reg id = none →
      (auto_close_sandbox_fire reg id = (reg, false)
        ∧ regLookup (cleanup_expired_sandboxes now reg).1 id = none
        ∧ id ∉ (cleanup_expired_sandboxes now reg).2)) := by
  constructor
  · rintro ⟨hl, he⟩
    have hsome : (regLookup reg id).isSome = true := by rw [hl]; rfl
    have hmem := mem_expired_ids reg id now c hl he
    have hnd' := nodup_expired_ids reg now hnd
    have hr := run_closes_mem (expired_ids now reg) id hnd' hmem reg [] hsome
    refine ⟨hr.1, hr.2, ?_, ?_⟩
    · unfold auto_close_sandbox_fire
      rw [if_pos hsome]
      exact regLookup_regErase_self reg id
    · unfold auto_close_sandbox_fire
      rw [if_pos hsome]
  · intro hl
    have hnm := not_mem_expired_ids reg id now hl
    have hr := run_closes_not_mem (expired_ids now reg) id hnm reg []
    refine ⟨?_, hr.1.trans hl, ?_⟩
    · unfold auto_close_sandbox_fire
      rw [if_neg (by rw [hl]; simp)]
    · intro hmem'
      simpa using hr.2.mp hmem'

/-- Witness for the amended claim C10 on a concrete registry: the
sandbox created at 0 is expired at time 100000 and both paths remove
it. -/
theorem c10_sweep_timer_amended_witness :
    ((([("a", 0), ("b", 200000)] : Registry).map Prod.fst).Nodup
      ∧ regLookup [("a", 0), ("b", 200000)] "a" = some 0
      ∧ is_expired 100000 0 = true)
    ∧ regLookup (cleanup_expired_sandboxes 100000 [("a", 0), ("b", 200000)]).1 "a" = none :=
  ⟨⟨by decide, by decide, by decide⟩,
    ((c10_sweep_timer_amended [("a", 0), ("b", 200000)] "a" 100000 0
      (by decide)).1 ⟨by decide, by decide⟩).1⟩
